import Mathlib

/-!
Verification development for the `tesseracttrainer` repository
(`src/model_trainer.py`, `src/tesseracttrainer.py`).

The Python code is embedded shallowly:

* Python string helpers (`str.strip`, `str.split("\n")`, `str.endswith`,
  `os.path.splitext`, `os.path.join`) are reimplemented as executable Lean
  functions over `List Char` / `String`.
* The box-file generator (`ModelTrainer.generate_box_files`) is embedded as a
  pure function from a transcription file's content to the outcome for that
  file; the external library calls `unicodedata.normalize("NFC", ·)` and
  `bidi.algorithm.get_display` are passed in as function parameters.
* The file-pairing discovery (`ImageTextWindow.get_file_base_names`), the
  tombstone logger (`ImageTextWindow.log_removed_pair`), the feature-file /
  manifest generation (`ModelTrainer.generate_lstmf_files`) and the purge of
  the output directory (`rm -rf <dir>/*` in `ModelTrainer.train`) are embedded
  over an explicit directory listing (`List String`).
* The training pipeline (`ModelTrainer.train_model` and the step methods it
  calls) is embedded as explicit state passing over `PState`; the external
  commands' behaviour is an oracle `exec : String → CommandResult`, and
  Python exceptions are `Except String`.
-/

/-- Python `str.isspace` on the ASCII whitespace characters; `str.strip()`
with no argument removes exactly these (plus further Unicode space
characters, which never occur in the inputs considered here). -/
def pyIsSpace (c : Char) : Bool :=
  c = ' ' || c = '\t' || c = '\n' || c = '\r' || c = '\x0b' || c = '\x0c'

/-- Python `str.strip()`: drop leading and trailing whitespace. -/
def pyStrip (s : String) : String :=
  String.mk (((s.data.dropWhile pyIsSpace).reverse.dropWhile pyIsSpace).reverse)

/-- Python `str.split("\n")` on a list of characters: split at every newline,
keeping empty segments; the empty string yields one empty segment. -/
def splitNlChars : List Char → List (List Char)
  | [] => [[]]
  | c :: rest =>
    let r := splitNlChars rest
    if c = '\n' then [] :: r
    else
      match r with
      | [] => [[c]]
      | h :: t => (c :: h) :: t

/-- Python `str.split("\n")`. -/
def pySplitNl (s : String) : List String :=
  (splitNlChars s.data).map String.mk

/-- Python `str.endswith(t)`: the last `t.length` characters of `s` are `t`. -/
def strEndsWith (s t : String) : Bool :=
  decide (t.data.length ≤ s.data.length) &&
    decide (s.data.drop (s.data.length - t.data.length) = t.data)

/-- Index of the last occurrence of `c` in `cs`, if any. -/
def lastIdxOf (c : Char) (cs : List Char) : Option Nat :=
  match cs.reverse.findIdx? (· = c) with
  | none => none
  | some i => some (cs.length - 1 - i)

/-- Python `os.path.splitext` (posix): split off the extension at the last
dot of the basename, unless every character of the basename before that dot
is itself a dot (a leading-dot filename has no extension). -/
def splitext (s : String) : String × String :=
  let cs := s.data
  let sepIdx : Nat :=
    match lastIdxOf '/' cs with
    | none => 0
    | some i => i + 1
  match lastIdxOf '.' cs with
  | none => (s, "")
  | some d =>
    if decide (sepIdx ≤ d) && ((cs.drop sepIdx).take (d - sepIdx)).any (· ≠ '.') then
      (String.mk (cs.take d), String.mk (cs.drop d))
    else (s, "")

/-- Python `os.path.join(a, b)` for a directory `a` without trailing slash
and a relative name `b`, as used throughout the repository. -/
def pathJoin (a b : String) : String := a ++ "/" ++ b

/-- A file name (no directory part) is an image the trainer processes:
`file.endswith(".png") or file.endswith(".tif")`
(`ModelTrainer.generate_box_files` / `generate_lstmf_files`). -/
def isImageFile (f : String) : Bool :=
  strEndsWith f ".png" || strEndsWith f ".tif"

/-! ## Box-file generation (`ModelTrainer.generate_box_files`) -/

/-- Outcome of `generate_box_files` for one image's transcription file:
either a two-line `.box` file is written, or the per-file `except` clause
logs an error (the `ValueError` raised for a line count other than one), or
the file is skipped without a box file and without an error because the
normalized line is empty (`if line:` is false). -/
inductive BoxResult where
  /-- A `.box` file with the given first and second line was written
  (each line is written with a trailing newline). -/
  | boxFile (line1 line2 : String)
  /-- The `ValueError` for a line count `n ≠ 1` was raised and caught; an
  error naming the file was logged and no box file written. -/
  | errorLogged (lineCount : Nat)
  /-- The normalized line is empty: no box file written, nothing logged. -/
  | skippedSilently
deriving DecidableEq

/-- First line of a box file:
`"WordStr 0 0 %d %d 0 #%s" % (width, height, line)`. -/
def boxLine1 (width height : Nat) (line : String) : String :=
  "WordStr 0 0 " ++ toString width ++ " " ++ toString height ++ " 0 #" ++ line

/-- Second line of a box file: `"\t 0 0 %d %d 0" % (width, height)`. -/
def boxLine2 (width height : Nat) : String :=
  "\t 0 0 " ++ toString width ++ " " ++ toString height ++ " 0"

/-- The per-file body of `ModelTrainer.generate_box_files`, embedding

```python
lines = f.read().strip().split("\n")
if len(lines) != 1:
    raise ValueError(...)          # caught per-file, logged
line = unicodedata.normalize("NFC", lines[0].strip())
if line:
    line = bidi.algorithm.get_display(line)
    f.write("WordStr 0 0 %d %d 0 #%s\n" % (width, height, line))
    f.write("\t 0 0 %d %d 0\n" % (width, height))
```

`nfc` stands for `unicodedata.normalize("NFC", ·)` and `bd` for
`bidi.algorithm.get_display`, both external library functions. -/
def processTranscription (nfc bd : String → String) (width height : Nat)
    (content : String) : BoxResult :=
  match pySplitNl (pyStrip content) with
  | [l0] =>
    let line := nfc (pyStrip l0)
    if line = "" then .skippedSilently
    else .boxFile (boxLine1 width height (bd line)) (boxLine2 width height)
  | ls => .errorLogged ls.length

/-- One ground-truth image as the trainer sees it: the file name in the
ground-truth directory, the image dimensions PIL reports, and the content of
the paired `.gt.txt` transcription file. -/
structure GtImage where
  name : String
  width : Nat
  height : Nat
  txtContent : String
deriving DecidableEq

/-- The batch loop of `generate_box_files` over the image files of the
ground-truth directory: each file is processed independently (the `try`
block is per-file, so one file's failure never stops the batch). -/
def generateBoxFiles (nfc bd : String → String) (imgs : List GtImage) :
    List BoxResult :=
  imgs.map (fun g => processTranscription nfc bd g.width g.height g.txtContent)

example : processTranscription id id 100 50 "abc" =
    .boxFile "WordStr 0 0 100 50 0 #abc" "\t 0 0 100 50 0" := by decide

example : processTranscription id id 100 50 "" = .skippedSilently := by decide

example : processTranscription id id 100 50 "a\nb" = .errorLogged 2 := by decide

/-! ## Pair discovery (`ImageTextWindow.get_file_base_names`) -/

/-- The loop body of `get_file_base_names`, iterating over the directory
listing of the base path.  `listing` is the fixed result of
`os.listdir(self.base_path)`; `os.path.exists` of a path inside the base
path is membership of its file name in that listing.  A missing counterpart
raises `FileNotFoundError` immediately (modelled as `Except.error`),
aborting the whole discovery. -/
def getFileBaseNamesAux (basePath : String) (listing : List String) :
    List String → Except String (List String)
  | [] => .ok []
  | f :: rest =>
    if strEndsWith f ".tif" then
      let baseName := (splitext f).1
      if (baseName ++ ".gt.txt") ∈ listing then
        match getFileBaseNamesAux basePath listing rest with
        | .ok r => .ok (pathJoin basePath baseName :: r)
        | .error e => .error e
      else .error ("Ground truth file not found for " ++ f)
    else if strEndsWith f ".gt.txt" then
      let baseName := ((splitext f).1).replace ".gt" ""
      if (baseName ++ ".tif") ∈ listing then
        getFileBaseNamesAux basePath listing rest
      else .error ("Image file not found for " ++ f)
    else getFileBaseNamesAux basePath listing rest

/-- `ImageTextWindow.get_file_base_names`: check the pairing of the files in
the base directory and collect the absolute base paths of the `.tif`
images. -/
def getFileBaseNames (basePath : String) (listing : List String) :
    Except String (List String) :=
  getFileBaseNamesAux basePath listing listing

/-- Whether a listing passes `get_file_base_names` without an exception:
every `.tif` has its `.gt.txt` in the listing, and every `.gt.txt` has its
`.tif` in the listing.  Files ending in neither (in particular `.png`
images) are not examined at all. -/
def discoveryPasses (listing : List String) : Bool :=
  listing.all fun f =>
    (!strEndsWith f ".tif" || decide (((splitext f).1 ++ ".gt.txt") ∈ listing)) &&
    (strEndsWith f ".tif" || !strEndsWith f ".gt.txt" ||
      decide (((((splitext f).1).replace ".gt" "") ++ ".tif") ∈ listing))

example : getFileBaseNames "/gt" ["a.tif"] =
    .error "Ground truth file not found for a.tif" := by rfl

example : getFileBaseNames "/gt" ["a.png"] = .ok [] := by rfl

/-! ## Removal tombstones (`ImageTextWindow.log_removed_pair`) -/

/-- `ImageTextWindow.log_removed_pair` as a function on the line list of
`removed_pairs.txt` (a missing file reads as `[]`): append the base name
only when it is not already logged. -/
def logRemovedPair (fileBaseName : String) (loggedPairs : List String) :
    List String :=
  if fileBaseName ∈ loggedPairs then loggedPairs
  else loggedPairs ++ [fileBaseName]

/-! ## Feature files and manifest (`ModelTrainer.generate_lstmf_files`) -/

/-- Path of the feature file `tesseract ... lstm.train` writes for an image
file: the image name with its extension replaced by `.lstmf`
(`os.path.splitext(image_path)[0]` plus the `.lstmf` tesseract appends). -/
def lstmfName (f : String) : String := (splitext f).1 ++ ".lstmf"

/-- Creating a file in a directory listing: a no-op when the name already
exists (the file is overwritten in place), otherwise the name is appended in
creation order. -/
def insertFile (d : List String) (f : String) : List String :=
  if f ∈ d then d else d ++ [f]

/-- The per-image loop of `generate_lstmf_files` as a filesystem action:
`images` is the (already filtered) list of image files of the snapshot
listing; for each image whose `tesseract` invocation succeeds, the feature
file appears in the directory (a failing invocation is only logged by
`run_command` and leaves no file). -/
def runTesseractBatch (succeeds : String → Bool) (images : List String)
    (d : List String) : List String :=
  images.foldl (fun acc f => if succeeds f then insertFile acc (lstmfName f) else acc) d

/-- `ModelTrainer.generate_lstmf_files` as a filesystem action on the
ground-truth directory listing `d`: run `tesseract` on every `.png`/`.tif`
file of the snapshot listing, then run
`find <dir> -name '*.lstmf' > <dir>/all-lstmf-list.txt`, whose redirection
creates the manifest file and whose output is one line per `.lstmf` file of
the directory, in filesystem enumeration order.  Returns the final listing
and the manifest's lines. -/
def generateLstmfFilesFs (succeeds : String → Bool) (d : List String) :
    List String × List String :=
  let d2 := runTesseractBatch succeeds (d.filter isImageFile) d
  let d3 := insertFile d2 "all-lstmf-list.txt"
  (d3, d3.filter (fun f => strEndsWith f ".lstmf"))

example : (generateLstmfFilesFs (fun _ => true) ["a.tif", "a.gt.txt", "b.png", "b.gt.txt"]).2 =
    ["a.lstmf", "b.lstmf"] := by decide

/-! ## Output-directory purge (`rm -rf <finetuned_dir>/*` in `ModelTrainer.train`) -/

/-- A file as the purge sees it: whether it lives directly in the output
(`<model>_finetuned`) directory, and its name there. -/
structure FsFile where
  inOutputDir : Bool
  name : String
deriving DecidableEq

/-- A file name is hidden: shell globbing of `*` does not match names that
start with a dot. -/
def isHiddenName (s : String) : Bool := s.data.head? = some '.'

/-- Filesystem effect of `self.run_command(f"rm -rf {self.finetuned_dir}/*")`
(`ModelTrainer.train`, `remove_old` branch): the shell expands
`<finetuned_dir>/*` to the non-hidden entries of the output directory and
`rm -rf` deletes exactly those; everything else is untouched. -/
def purgeOutputDir (fs : List FsFile) : List FsFile :=
  fs.filter fun f => !f.inOutputDir || isHiddenName f.name

example : purgeOutputDir
    [⟨true, "deu_finetuned.log"⟩, ⟨true, ".cache"⟩, ⟨false, "a.tif"⟩] =
    [⟨true, ".cache"⟩, ⟨false, "a.tif"⟩] := by decide


/-! ## The training pipeline (`ModelTrainer` and `train_model`) -/

/-- The constructor arguments of `ModelTrainer.__init__`. -/
structure TrainerCfg where
  modelName : String
  baseDir : String
  tessdataDir : String
deriving DecidableEq

/-- `self.ground_truth_dir = f"{self.base_dir}"`. -/
def groundTruthDir (cfg : TrainerCfg) : String := cfg.baseDir

/-- `self.finetuned_dir = f"{self.base_dir}/{self.model_name}_finetuned"`. -/
def finetunedDir (cfg : TrainerCfg) : String :=
  cfg.baseDir ++ "/" ++ cfg.modelName ++ "_finetuned"

/-- The log file path `run_command` opens in append mode:
`os.path.join(self.finetuned_dir, f"{self.model_name}_finetuned.log")`. -/
def logFilePath (cfg : TrainerCfg) : String :=
  finetunedDir cfg ++ "/" ++ cfg.modelName ++ "_finetuned.log"

/-- Behaviour of one external command: the lines of its combined
stdout/stderr stream and its exit code.  The whole external world is an
oracle `exec : String → CommandResult`. -/
structure CommandResult where
  outputLines : List String
  exitCode : Int
deriving DecidableEq

/-- The eight pipeline steps `ModelTrainer.train_model` runs, in source
order. -/
inductive Step where
  | extractBaseLstm
  | prepareDirectories
  | generateBoxFiles
  | generateLstmfFiles
  | generateUnicharset
  | train
  | convertCheckpoint
  | evaluateModel
deriving DecidableEq

/-- A structured `loguru` log event (`logger.info` / `logger.error`). -/
inductive Event where
  | info (msg : String)
  | error (msg : String)
deriving DecidableEq

/-- Observable state threaded through the pipeline: whether the
`<model>_finetuned` output directory exists, the lines printed to the
console, the content of the per-job log file, the external commands actually
handed to `subprocess.Popen` (tagged, as bookkeeping, with the pipeline step
on whose behalf they were launched), the structured log events, and the
trace of pipeline steps that started executing. -/
structure PState where
  finetunedDirExists : Bool
  console : List String
  logContent : List String
  launched : List (Step × String)
  events : List Event
  steps : List Step
deriving DecidableEq

/-- Append log events (`logger.info` / `logger.error` calls). -/
def addEvents (st : PState) (E : List Event) : PState :=
  { st with events := st.events ++ E }

/-- Record in the trace that a pipeline step started executing. -/
def addStep (st : PState) (t : Step) : PState :=
  { st with steps := st.steps ++ [t] }

/-- `os.makedirs(self.finetuned_dir, exist_ok=True)`. -/
def setDirTrue (st : PState) : PState :=
  { st with finetunedDirExists := true }

@[simp] theorem addEvents_finetunedDirExists (st : PState) (E : List Event) :
    (addEvents st E).finetunedDirExists = st.finetunedDirExists := rfl

@[simp] theorem addEvents_console (st : PState) (E : List Event) :
    (addEvents st E).console = st.console := rfl

@[simp] theorem addEvents_logContent (st : PState) (E : List Event) :
    (addEvents st E).logContent = st.logContent := rfl

@[simp] theorem addEvents_launched (st : PState) (E : List Event) :
    (addEvents st E).launched = st.launched := rfl

@[simp] theorem addEvents_events (st : PState) (E : List Event) :
    (addEvents st E).events = st.events ++ E := rfl

@[simp] theorem addEvents_steps (st : PState) (E : List Event) :
    (addEvents st E).steps = st.steps := rfl

@[simp] theorem addStep_finetunedDirExists (st : PState) (t : Step) :
    (addStep st t).finetunedDirExists = st.finetunedDirExists := rfl

@[simp] theorem addStep_console (st : PState) (t : Step) :
    (addStep st t).console = st.console := rfl

@[simp] theorem addStep_logContent (st : PState) (t : Step) :
    (addStep st t).logContent = st.logContent := rfl

@[simp] theorem addStep_launched (st : PState) (t : Step) :
    (addStep st t).launched = st.launched := rfl

@[simp] theorem addStep_events (st : PState) (t : Step) :
    (addStep st t).events = st.events := rfl

@[simp] theorem addStep_steps (st : PState) (t : Step) :
    (addStep st t).steps = st.steps ++ [t] := rfl

@[simp] theorem setDirTrue_finetunedDirExists (st : PState) :
    (setDirTrue st).finetunedDirExists = true := rfl

@[simp] theorem setDirTrue_console (st : PState) :
    (setDirTrue st).console = st.console := rfl

@[simp] theorem setDirTrue_logContent (st : PState) :
    (setDirTrue st).logContent = st.logContent := rfl

@[simp] theorem setDirTrue_launched (st : PState) :
    (setDirTrue st).launched = st.launched := rfl

@[simp] theorem setDirTrue_events (st : PState) :
    (setDirTrue st).events = st.events := rfl

@[simp] theorem setDirTrue_steps (st : PState) :
    (setDirTrue st).steps = st.steps := rfl

/-- Python exception propagation: a raised exception in `r` skips `f`
(there is no handler between them). -/
def andThen (r : Except String PState) (f : PState → Except String PState) :
    Except String PState :=
  match r with
  | .error e => .error e
  | .ok st => f st

/-- A Python `try/except` around `r`: `onOk` continues after the `try`
block, `onErr` is the `except` clause; either way no exception escapes. -/
def tryStep (r : Except String PState) (onOk : PState → PState)
    (onErr : String → PState) : PState :=
  match r with
  | .ok st => onOk st
  | .error e => onErr e

@[simp] theorem andThen_ok (st : PState) (f : PState → Except String PState) :
    andThen (.ok st) f = f st := rfl

@[simp] theorem andThen_err (e : String) (f : PState → Except String PState) :
    andThen (.error e) f = .error e := rfl

@[simp] theorem tryStep_ok (st : PState) (onOk : PState → PState)
    (onErr : String → PState) : tryStep (.ok st) onOk onErr = onOk st := rfl

@[simp] theorem tryStep_err (e : String) (onOk : PState → PState)
    (onErr : String → PState) : tryStep (.error e) onOk onErr = onErr e := rfl

/-- `ModelTrainer.run_command`, embedding

```python
with open(log_file_path, "a") as log_file:      # raises if the directory
    process = subprocess.Popen(command, ...)    # holding the log is missing
    for line in process.stdout:
        print(line, end="")                     # console
        log_file.write(line)                    # log file, append mode
    process.wait()
    if process.returncode != 0:
        logger.error(f"Command failed with return code {...}: {command}")
    else:
        logger.info(f"Command completed successfully: {command}")
```

`classifyEvent` is the log event emitted after `process.wait()`: an error
carrying the exit code for a non-zero exit, a success info otherwise. -/
def classifyEvent (cmd : String) (r : CommandResult) : Event :=
  if r.exitCode ≠ 0 then
    .error ("Command failed with return code " ++ toString r.exitCode ++ ": " ++ cmd)
  else .info ("Command completed successfully: " ++ cmd)

/-- The state after a successfully opened log and a completed command:
output streamed to both console and log file (append mode), the command
recorded as launched, the classification event logged. -/
def afterCommand (exec : String → CommandResult) (tag : Step) (cmd : String)
    (st : PState) : PState :=
  { st with
    console := st.console ++ (exec cmd).outputLines
    logContent := st.logContent ++ (exec cmd).outputLines
    launched := st.launched ++ [(tag, cmd)]
    events := st.events ++ [classifyEvent cmd (exec cmd)] }

@[simp] theorem afterCommand_finetunedDirExists (exec : String → CommandResult)
    (tag : Step) (cmd : String) (st : PState) :
    (afterCommand exec tag cmd st).finetunedDirExists = st.finetunedDirExists := rfl

@[simp] theorem afterCommand_console (exec : String → CommandResult)
    (tag : Step) (cmd : String) (st : PState) :
    (afterCommand exec tag cmd st).console = st.console ++ (exec cmd).outputLines := rfl

@[simp] theorem afterCommand_logContent (exec : String → CommandResult)
    (tag : Step) (cmd : String) (st : PState) :
    (afterCommand exec tag cmd st).logContent =
      st.logContent ++ (exec cmd).outputLines := rfl

@[simp] theorem afterCommand_launched (exec : String → CommandResult)
    (tag : Step) (cmd : String) (st : PState) :
    (afterCommand exec tag cmd st).launched = st.launched ++ [(tag, cmd)] := rfl

@[simp] theorem afterCommand_events (exec : String → CommandResult)
    (tag : Step) (cmd : String) (st : PState) :
    (afterCommand exec tag cmd st).events =
      st.events ++ [classifyEvent cmd (exec cmd)] := rfl

@[simp] theorem afterCommand_steps (exec : String → CommandResult)
    (tag : Step) (cmd : String) (st : PState) :
    (afterCommand exec tag cmd st).steps = st.steps := rfl

/-- `ModelTrainer.run_command`: the `open(..., "a")` raises
`FileNotFoundError` when `finetuned_dir` does not exist, before the command
is launched (the `.error` case); otherwise the command runs to completion
(`afterCommand`).  The `process.stdout is None` branch of the source is
unreachable because `stdout=subprocess.PIPE` always yields a pipe.  The
function blocks until the process exits and classifies the outcome purely by
the exit status (`classifyEvent`). -/
def runCommand (cfg : TrainerCfg) (exec : String → CommandResult) (tag : Step)
    (cmd : String) (st : PState) : Except String PState :=
  if st.finetunedDirExists then .ok (afterCommand exec tag cmd st)
  else .error ("No such file or directory: " ++ logFilePath cfg)

theorem runCommand_ok (cfg : TrainerCfg) (exec : String → CommandResult)
    (tag : Step) (cmd : String) (st : PState)
    (h : st.finetunedDirExists = true) :
    runCommand cfg exec tag cmd st = .ok (afterCommand exec tag cmd st) := by
  simp [runCommand, h]

theorem runCommand_err (cfg : TrainerCfg) (exec : String → CommandResult)
    (tag : Step) (cmd : String) (st : PState)
    (h : st.finetunedDirExists = false) :
    runCommand cfg exec tag cmd st =
      .error ("No such file or directory: " ++ logFilePath cfg) := by
  simp [runCommand, h]

/-- Command of `extract_base_lstm`:
`combine_tessdata -e {traineddata_path} {lstm_output_path}`. -/
def cmdExtract (cfg : TrainerCfg) : String :=
  "combine_tessdata -e " ++ cfg.tessdataDir ++ "/" ++ cfg.modelName ++
    ".traineddata " ++ cfg.baseDir ++ "/" ++ cfg.modelName ++ ".lstm"

/-- `ModelTrainer.extract_base_lstm` (step 1): an info log, then
`run_command` inside `try/except`; a raised exception is caught and logged,
never propagated. -/
def extractBaseLstmStep (cfg : TrainerCfg) (exec : String → CommandResult)
    (st : PState) : PState :=
  tryStep
    (runCommand cfg exec .extractBaseLstm (cmdExtract cfg)
      (addEvents (addStep st .extractBaseLstm)
        [.info ("Extracting base LSTM for model: " ++ cfg.modelName)]))
    (fun st1 => addEvents st1
      [.info ("Successfully extracted base LSTM to: " ++ cfg.baseDir ++ "/" ++
        cfg.modelName ++ ".lstm")])
    (fun e => addEvents (addStep st .extractBaseLstm)
      [.info ("Extracting base LSTM for model: " ++ cfg.modelName),
       .error ("Failed to extract base LSTM for model: " ++ cfg.modelName ++
         ". Error: " ++ e)])

/-- `ModelTrainer.prepare_directories` (step 2):
`os.makedirs(self.finetuned_dir, exist_ok=True)`, idempotent. -/
def prepareDirectoriesStep (cfg : TrainerCfg) (st : PState) : PState :=
  addEvents (setDirTrue (addStep st .prepareDirectories))
    [.info ("Created or verified existence of directory: " ++ finetunedDir cfg)]

/-- `os.path.join(self.ground_truth_dir, file)`. -/
def gtImagePath (cfg : TrainerCfg) (name : String) : String :=
  pathJoin (groundTruthDir cfg) name

/-- Log events of `generate_box_files` for one directory entry; only image
files are processed, each inside its own `try` block.  The image is assumed
readable with the dimensions recorded in `g` (`PIL.Image.open`). -/
def boxFileEvents (nfc bd : String → String) (cfg : TrainerCfg) (g : GtImage) :
    List Event :=
  if isImageFile g.name then
    [.info ("Processing image: " ++ gtImagePath cfg g.name),
     .info ("Image dimensions (width x height): " ++ toString g.width ++ " x " ++
       toString g.height)] ++
    (match processTranscription nfc bd g.width g.height g.txtContent with
     | .boxFile _ _ =>
       [.info ("Generated box file: " ++ (splitext (gtImagePath cfg g.name)).1 ++ ".box")]
     | .errorLogged n =>
       [.error ("Failed to process " ++ gtImagePath cfg g.name ++
         ": ERROR: Ground truth text file should contain exactly one line, not " ++
         toString n)]
     | .skippedSilently => [])
  else []

/-- `ModelTrainer.generate_box_files` (step 3) as a pipeline step: launches
no external command; the per-file `try` blocks make it total.  `gt` is the
directory listing with the data of each entry attached (entries that are not
images carry irrelevant dimension/text fields). -/
def generateBoxFilesStep (nfc bd : String → String) (cfg : TrainerCfg)
    (gt : List GtImage) (st : PState) : PState :=
  addEvents (addStep st .generateBoxFiles) (gt.map (boxFileEvents nfc bd cfg)).flatten

/-- Command run per image in `generate_lstmf_files`:
`tesseract {image_path} {lstmf_path} --psm 6 lstm.train`. -/
def cmdTesseract (cfg : TrainerCfg) (name : String) : String :=
  "tesseract " ++ gtImagePath cfg name ++ " " ++
    (splitext (gtImagePath cfg name)).1 ++ " --psm 6 lstm.train"

/-- Manifest path `f"{self.ground_truth_dir}/all-lstmf-list.txt"`. -/
def lstmfListPath (cfg : TrainerCfg) : String :=
  groundTruthDir cfg ++ "/all-lstmf-list.txt"

/-- Command `find {ground_truth_dir} -name '*.lstmf' > {lstmf_list_path}`. -/
def cmdFind (cfg : TrainerCfg) : String :=
  "find " ++ groundTruthDir cfg ++ " -name \x27*.lstmf\x27 > " ++ lstmfListPath cfg

/-- The per-image loop of `generate_lstmf_files`: `run_command` for every
image file.  There is no `try/except` here, so an exception raised by
`run_command` propagates. -/
def runTesseractAll (cfg : TrainerCfg) (exec : String → CommandResult) :
    List GtImage → PState → Except String PState
  | [], st => .ok st
  | g :: gs, st =>
    if isImageFile g.name then
      andThen
        (runCommand cfg exec .generateLstmfFiles (cmdTesseract cfg g.name)
          (addEvents st
            [.info ("Generating LSTMF file for image: " ++ gtImagePath cfg g.name)]))
        (fun st1 => runTesseractAll cfg exec gs st1)
    else runTesseractAll cfg exec gs st

/-- `ModelTrainer.generate_lstmf_files` (step 4): tesseract per image, then
the `find` redirection producing the manifest.  No exception handling. -/
def generateLstmfFilesStep (cfg : TrainerCfg) (exec : String → CommandResult)
    (gt : List GtImage) (st : PState) : Except String PState :=
  andThen (runTesseractAll cfg exec gt (addStep st .generateLstmfFiles))
    (fun st1 =>
      andThen
        (runCommand cfg exec .generateLstmfFiles (cmdFind cfg)
          (addEvents st1 [.info ("Creating LSTMF list file: " ++ lstmfListPath cfg)]))
        (fun st3 => .ok (addEvents st3
          [.info ("LSTMF files and list generation completed for model: " ++
            cfg.modelName)])))

/-- Command of `generate_unicharset`:
`unicharset_extractor --output_unicharset {output_file} {ground_truth_dir}/*.gt.txt`. -/
def cmdUnicharset (cfg : TrainerCfg) : String :=
  "unicharset_extractor --output_unicharset " ++ cfg.baseDir ++ "/unicharset " ++
    groundTruthDir cfg ++ "/*.gt.txt"

/-- `ModelTrainer.generate_unicharset` (step 5): `run_command` inside
`try/except`, total. -/
def generateUnicharsetStep (cfg : TrainerCfg) (exec : String → CommandResult)
    (st : PState) : PState :=
  tryStep
    (runCommand cfg exec .generateUnicharset (cmdUnicharset cfg)
      (addEvents (addStep st .generateUnicharset)
        [.info ("Generating unicharset for ground truth files in: " ++
          groundTruthDir cfg)]))
    (fun st1 => addEvents st1
      [.info ("Unicharset generation completed successfully. Output file: " ++
        cfg.baseDir ++ "/unicharset")])
    (fun e => addEvents (addStep st .generateUnicharset)
      [.info ("Generating unicharset for ground truth files in: " ++
         groundTruthDir cfg),
       .error ("Failed to generate unicharset: " ++ e)])

/-- The purge command `rm -rf {self.finetuned_dir}/*` of
`ModelTrainer.train`. -/
def cmdRmOld (cfg : TrainerCfg) : String :=
  "rm -rf " ++ finetunedDir cfg ++ "/*"

/-- The `lstmtraining` command of `ModelTrainer.train` (note the trailing
space of the last f-string fragment). -/
def cmdTrain (cfg : TrainerCfg) (iterations : Nat) : String :=
  "lstmtraining --model_output " ++ finetunedDir cfg ++ "/" ++ cfg.modelName ++
    " --continue_from " ++ cfg.baseDir ++ "/" ++ cfg.modelName ++ ".lstm" ++
    " --traineddata " ++ cfg.tessdataDir ++ "/" ++ cfg.modelName ++ ".traineddata" ++
    " --train_listfile " ++ lstmfListPath cfg ++
    " --max_iterations " ++ toString iterations ++ " "

/-- Python default of the `iterations` parameter of `ModelTrainer.train`
(`def train(self, iterations=400, ...)`). -/
def trainDefaultIterations : Nat := 400

/-- Python default of the `remove_old` parameter of `ModelTrainer.train`. -/
def trainDefaultRemoveOld : Bool := true

/-- `ModelTrainer.train` (step 6): optional purge of the output directory
(outside the `try`, so a raised exception there would propagate), then
`lstmtraining` inside `try/except`.  The unused `learning_rate` and
`error_rate` parameters of the Python signature are omitted: the body never
reads them. -/
def trainStep (cfg : TrainerCfg) (exec : String → CommandResult)
    (iterations : Nat) (removeOld : Bool) (st : PState) : Except String PState :=
  andThen
    (if removeOld then
      runCommand cfg exec .train (cmdRmOld cfg)
        (addEvents (addStep st .train)
          [.info ("Removing old files in: " ++ finetunedDir cfg)])
    else .ok (addStep st .train))
    (fun st1 => .ok (tryStep
      (runCommand cfg exec .train (cmdTrain cfg iterations)
        (addEvents st1 [.info ("Starting training for model: " ++ cfg.modelName)]))
      (fun st3 => addEvents st3
        [.info ("Training completed successfully for model: " ++ cfg.modelName)])
      (fun e => addEvents st1
        [.info ("Starting training for model: " ++ cfg.modelName),
         .error ("Training failed for model: " ++ cfg.modelName ++ ". Error: " ++ e)])))

/-- Command of `convert_checkpoint_to_traineddata`. -/
def cmdConvert (cfg : TrainerCfg) : String :=
  "lstmtraining --stop_training --continue_from " ++ finetunedDir cfg ++ "/" ++
    cfg.modelName ++ "_checkpoint --traineddata /usr/share/tessdata/" ++
    cfg.modelName ++ ".traineddata --model_output " ++ finetunedDir cfg ++ "/" ++
    cfg.modelName ++ ".traineddata"

/-- `ModelTrainer.convert_checkpoint_to_traineddata` (step 7): `run_command`
inside `try/except`, total. -/
def convertCheckpointStep (cfg : TrainerCfg) (exec : String → CommandResult)
    (st : PState) : PState :=
  tryStep
    (runCommand cfg exec .convertCheckpoint (cmdConvert cfg)
      (addEvents (addStep st .convertCheckpoint)
        [.info ("Converting checkpoint to traineddata for model: " ++ cfg.modelName)]))
    (fun st1 => addEvents st1
      [.info ("Successfully converted checkpoint to traineddata for model: " ++
        cfg.modelName)])
    (fun e => addEvents (addStep st .convertCheckpoint)
      [.info ("Converting checkpoint to traineddata for model: " ++ cfg.modelName),
       .error ("Failed to convert checkpoint to traineddata for model: " ++
         cfg.modelName ++ ". Error: " ++ e)])

/-- Command of `evaluate_model`. -/
def cmdEval (cfg : TrainerCfg) : String :=
  "lstmeval --model " ++ finetunedDir cfg ++ "/" ++ cfg.modelName ++
    ".traineddata --eval_listfile " ++ lstmfListPath cfg ++
    " --traineddata /usr/share/tessdata/" ++ cfg.modelName ++ ".traineddata"

/-- `ModelTrainer.evaluate_model` (step 8): `run_command` inside
`try/except`, total. -/
def evaluateModelStep (cfg : TrainerCfg) (exec : String → CommandResult)
    (st : PState) : PState :=
  tryStep
    (runCommand cfg exec .evaluateModel (cmdEval cfg)
      (addEvents (addStep st .evaluateModel)
        [.info ("Evaluating model: " ++ cfg.modelName)]))
    (fun st1 => addEvents st1
      [.info ("Model evaluation completed successfully for model: " ++
        cfg.modelName)])
    (fun e => addEvents (addStep st .evaluateModel)
      [.info ("Evaluating model: " ++ cfg.modelName),
       .error ("Model evaluation failed for model: " ++ cfg.modelName ++
         ". Error: " ++ e)])

/-- Steps 2-8 of `ModelTrainer.train_model` in source order, from the state
step 1 left behind.  The call `self.train(iterations=1000)` uses the Python
default of `remove_old` (true).  Exceptions escaping a step (only possible
in `generate_lstmf_files` and the purge of `train`, which have no handler)
propagate and abort the pipeline. -/
def trainModelTail (nfc bd : String → String) (cfg : TrainerCfg)
    (exec : String → CommandResult) (gt : List GtImage) (st1 : PState) :
    Except String PState :=
  andThen
    (generateLstmfFilesStep cfg exec gt
      (generateBoxFilesStep nfc bd cfg gt (prepareDirectoriesStep cfg st1)))
    (fun st4 =>
      andThen
        (trainStep cfg exec 1000 trainDefaultRemoveOld
          (generateUnicharsetStep cfg exec st4))
        (fun st6 => .ok (evaluateModelStep cfg exec (convertCheckpointStep cfg exec st6))))

/-- `ModelTrainer.train_model`: step 1 (`extract_base_lstm`) followed by
steps 2-8 (`trainModelTail`). -/
def trainModel (nfc bd : String → String) (cfg : TrainerCfg)
    (exec : String → CommandResult) (gt : List GtImage) (st : PState) :
    Except String PState :=
  trainModelTail nfc bd cfg exec gt (extractBaseLstmStep cfg exec st)

/-- The eight steps in the order `train_model` runs them. -/
def pipelineOrder : List Step :=
  [.extractBaseLstm, .prepareDirectories, .generateBoxFiles, .generateLstmfFiles,
   .generateUnicharset, .train, .convertCheckpoint, .evaluateModel]

/-! ## Lemmas about the pipeline steps -/

/-- The launched commands of step 4 when the log directory exists. -/
def lstmfLaunched (cfg : TrainerCfg) (gt : List GtImage) : List (Step × String) :=
  (gt.filter (fun g => isImageFile g.name)).map
    (fun g => (Step.generateLstmfFiles, cmdTesseract cfg g.name)) ++
  [(Step.generateLstmfFiles, cmdFind cfg)]

theorem extractBaseLstmStep_ok (cfg : TrainerCfg) (exec : String → CommandResult)
    (st : PState) (h : st.finetunedDirExists = true) :
    (extractBaseLstmStep cfg exec st).finetunedDirExists = true ∧
    (extractBaseLstmStep cfg exec st).steps = st.steps ++ [Step.extractBaseLstm] ∧
    (extractBaseLstmStep cfg exec st).launched =
      st.launched ++ [(Step.extractBaseLstm, cmdExtract cfg)] ∧
    st.events <+: (extractBaseLstmStep cfg exec st).events := by
  rw [extractBaseLstmStep, runCommand_ok _ _ _ _ _ (by simp [h]), tryStep_ok]
  refine ⟨by simp [h], by simp, by simp, ?_⟩
  refine ⟨[.info ("Extracting base LSTM for model: " ++ cfg.modelName),
    classifyEvent (cmdExtract cfg) (exec (cmdExtract cfg)),
    .info ("Successfully extracted base LSTM to: " ++ cfg.baseDir ++ "/" ++
      cfg.modelName ++ ".lstm")], ?_⟩
  simp

theorem extractBaseLstmStep_fresh (cfg : TrainerCfg) (exec : String → CommandResult)
    (st : PState) (h : st.finetunedDirExists = false) :
    extractBaseLstmStep cfg exec st =
      addEvents (addStep st .extractBaseLstm)
        [.info ("Extracting base LSTM for model: " ++ cfg.modelName),
         .error ("Failed to extract base LSTM for model: " ++ cfg.modelName ++
           ". Error: " ++ ("No such file or directory: " ++ logFilePath cfg))] := by
  rw [extractBaseLstmStep, runCommand_err _ _ _ _ _ (by simp [h]), tryStep_err]

theorem runTesseractAll_ok (cfg : TrainerCfg) (exec : String → CommandResult)
    (gs : List GtImage) (st : PState) (h : st.finetunedDirExists = true) :
    ∃ st', runTesseractAll cfg exec gs st = .ok st' ∧
      st'.finetunedDirExists = true ∧
      st'.steps = st.steps ∧
      st'.launched = st.launched ++ (gs.filter (fun g => isImageFile g.name)).map
        (fun g => (Step.generateLstmfFiles, cmdTesseract cfg g.name)) ∧
      st.events <+: st'.events := by
  induction gs generalizing st with
  | nil => exact ⟨st, rfl, h, rfl, by simp, by simp⟩
  | cons g gs ih =>
    by_cases hg : isImageFile g.name = true
    · obtain ⟨st', h1, h2, h3, h4, h5⟩ :=
        ih (afterCommand exec Step.generateLstmfFiles (cmdTesseract cfg g.name)
          (addEvents st
            [.info ("Generating LSTMF file for image: " ++ gtImagePath cfg g.name)]))
          (by simp [h])
      refine ⟨st', ?_, h2, by simpa using h3, ?_, ?_⟩
      · rw [runTesseractAll, if_pos hg, runCommand_ok _ _ _ _ _ (by simp [h]),
          andThen_ok]
        exact h1
      · rw [h4]; simp [hg]
      · refine (List.prefix_append st.events
          [.info ("Generating LSTMF file for image: " ++ gtImagePath cfg g.name),
           classifyEvent (cmdTesseract cfg g.name) (exec (cmdTesseract cfg g.name))]).trans ?_
        simpa using h5
    · obtain ⟨st', h1, h2, h3, h4, h5⟩ := ih st h
      refine ⟨st', ?_, h2, h3, by rw [h4]; simp [hg], h5⟩
      rw [runTesseractAll, if_neg hg]
      exact h1

theorem generateLstmfFilesStep_ok (cfg : TrainerCfg) (exec : String → CommandResult)
    (gt : List GtImage) (st : PState) (h : st.finetunedDirExists = true) :
    ∃ st', generateLstmfFilesStep cfg exec gt st = .ok st' ∧
      st'.finetunedDirExists = true ∧
      st'.steps = st.steps ++ [Step.generateLstmfFiles] ∧
      st'.launched = st.launched ++ lstmfLaunched cfg gt ∧
      st.events <+: st'.events := by
  obtain ⟨st1, h1, h2, h3, h4, h5⟩ :=
    runTesseractAll_ok cfg exec gt (addStep st .generateLstmfFiles) (by simp [h])
  refine ⟨addEvents
    (afterCommand exec Step.generateLstmfFiles (cmdFind cfg)
      (addEvents st1 [.info ("Creating LSTMF list file: " ++ lstmfListPath cfg)]))
    [.info ("LSTMF files and list generation completed for model: " ++ cfg.modelName)],
    ?_, by simp [h2], ?_, ?_, ?_⟩
  · rw [generateLstmfFilesStep, h1, andThen_ok,
      runCommand_ok _ _ _ _ _ (by simp [h2]), andThen_ok]
  · simp only [addEvents_steps, afterCommand_steps]
    rw [h3]; simp
  · simp only [addEvents_launched, afterCommand_launched]
    rw [h4]; simp [lstmfLaunched]
  · refine ((by simpa using h5 : st.events <+: st1.events).trans ?_)
    refine ⟨[.info ("Creating LSTMF list file: " ++ lstmfListPath cfg),
      classifyEvent (cmdFind cfg) (exec (cmdFind cfg)),
      .info ("LSTMF files and list generation completed for model: " ++ cfg.modelName)], ?_⟩
    simp

theorem generateUnicharsetStep_ok (cfg : TrainerCfg) (exec : String → CommandResult)
    (st : PState) (h : st.finetunedDirExists = true) :
    (generateUnicharsetStep cfg exec st).finetunedDirExists = true ∧
    (generateUnicharsetStep cfg exec st).steps = st.steps ++ [Step.generateUnicharset] ∧
    (generateUnicharsetStep cfg exec st).launched =
      st.launched ++ [(Step.generateUnicharset, cmdUnicharset cfg)] ∧
    st.events <+: (generateUnicharsetStep cfg exec st).events := by
  rw [generateUnicharsetStep, runCommand_ok _ _ _ _ _ (by simp [h]), tryStep_ok]
  refine ⟨by simp [h], by simp, by simp, ?_⟩
  refine ⟨[.info ("Generating unicharset for ground truth files in: " ++
      groundTruthDir cfg),
    classifyEvent (cmdUnicharset cfg) (exec (cmdUnicharset cfg)),
    .info ("Unicharset generation completed successfully. Output file: " ++
      cfg.baseDir ++ "/unicharset")], ?_⟩
  simp

theorem trainStep_ok (cfg : TrainerCfg) (exec : String → CommandResult)
    (iterations : Nat) (st : PState) (h : st.finetunedDirExists = true) :
    ∃ st', trainStep cfg exec iterations true st = .ok st' ∧
      st'.finetunedDirExists = true ∧
      st'.steps = st.steps ++ [Step.train] ∧
      st'.launched = st.launched ++
        [(Step.train, cmdRmOld cfg), (Step.train, cmdTrain cfg iterations)] ∧
      st.events <+: st'.events := by
  refine ⟨addEvents
    (afterCommand exec Step.train (cmdTrain cfg iterations)
      (addEvents
        (afterCommand exec Step.train (cmdRmOld cfg)
          (addEvents (addStep st .train)
            [.info ("Removing old files in: " ++ finetunedDir cfg)]))
        [.info ("Starting training for model: " ++ cfg.modelName)]))
    [.info ("Training completed successfully for model: " ++ cfg.modelName)],
    ?_, by simp [h], by simp, by simp, ?_⟩
  · rw [trainStep, if_pos rfl, runCommand_ok _ _ _ _ _ (by simp [h]), andThen_ok,
      runCommand_ok _ _ _ _ _ (by simp [h]), tryStep_ok]
  · refine ⟨[.info ("Removing old files in: " ++ finetunedDir cfg),
      classifyEvent (cmdRmOld cfg) (exec (cmdRmOld cfg)),
      .info ("Starting training for model: " ++ cfg.modelName),
      classifyEvent (cmdTrain cfg iterations) (exec (cmdTrain cfg iterations)),
      .info ("Training completed successfully for model: " ++ cfg.modelName)], ?_⟩
    simp

theorem convertCheckpointStep_ok (cfg : TrainerCfg) (exec : String → CommandResult)
    (st : PState) (h : st.finetunedDirExists = true) :
    (convertCheckpointStep cfg exec st).finetunedDirExists = true ∧
    (convertCheckpointStep cfg exec st).steps = st.steps ++ [Step.convertCheckpoint] ∧
    (convertCheckpointStep cfg exec st).launched =
      st.launched ++ [(Step.convertCheckpoint, cmdConvert cfg)] ∧
    st.events <+: (convertCheckpointStep cfg exec st).events := by
  rw [convertCheckpointStep, runCommand_ok _ _ _ _ _ (by simp [h]), tryStep_ok]
  refine ⟨by simp [h], by simp, by simp, ?_⟩
  refine ⟨[.info ("Converting checkpoint to traineddata for model: " ++ cfg.modelName),
    classifyEvent (cmdConvert cfg) (exec (cmdConvert cfg)),
    .info ("Successfully converted checkpoint to traineddata for model: " ++
      cfg.modelName)], ?_⟩
  simp

theorem evaluateModelStep_ok (cfg : TrainerCfg) (exec : String → CommandResult)
    (st : PState) (h : st.finetunedDirExists = true) :
    (evaluateModelStep cfg exec st).finetunedDirExists = true ∧
    (evaluateModelStep cfg exec st).steps = st.steps ++ [Step.evaluateModel] ∧
    (evaluateModelStep cfg exec st).launched =
      st.launched ++ [(Step.evaluateModel, cmdEval cfg)] ∧
    st.events <+: (evaluateModelStep cfg exec st).events := by
  rw [evaluateModelStep, runCommand_ok _ _ _ _ _ (by simp [h]), tryStep_ok]
  refine ⟨by simp [h], by simp, by simp, ?_⟩
  refine ⟨[.info ("Evaluating model: " ++ cfg.modelName),
    classifyEvent (cmdEval cfg) (exec (cmdEval cfg)),
    .info ("Model evaluation completed successfully for model: " ++ cfg.modelName)], ?_⟩
  simp

/-- The commands steps 5-8 launch, in order. -/
def lateLaunched (cfg : TrainerCfg) : List (Step × String) :=
  [(Step.generateUnicharset, cmdUnicharset cfg),
   (Step.train, cmdRmOld cfg), (Step.train, cmdTrain cfg 1000),
   (Step.convertCheckpoint, cmdConvert cfg), (Step.evaluateModel, cmdEval cfg)]

theorem trainModelTail_spec (nfc bd : String → String) (cfg : TrainerCfg)
    (exec : String → CommandResult) (gt : List GtImage) (st1 : PState) :
    ∃ st', trainModelTail nfc bd cfg exec gt st1 = .ok st' ∧
      st'.finetunedDirExists = true ∧
      st'.steps = st1.steps ++
        [Step.prepareDirectories, Step.generateBoxFiles, Step.generateLstmfFiles,
         Step.generateUnicharset, Step.train, Step.convertCheckpoint,
         Step.evaluateModel] ∧
      st'.launched = st1.launched ++ lstmfLaunched cfg gt ++ lateLaunched cfg ∧
      st1.events <+: st'.events := by
  obtain ⟨st4, h41, h42, h43, h44, h45⟩ :=
    generateLstmfFilesStep_ok cfg exec gt
      (generateBoxFilesStep nfc bd cfg gt (prepareDirectoriesStep cfg st1))
      (by simp [generateBoxFilesStep, prepareDirectoriesStep])
  obtain ⟨u1, u2, u3, u4⟩ := generateUnicharsetStep_ok cfg exec st4 h42
  obtain ⟨st6, t1, t2, t3, t4, t5⟩ :=
    trainStep_ok cfg exec 1000 (generateUnicharsetStep cfg exec st4) u1
  obtain ⟨c1, c2, c3, c4⟩ :=
    convertCheckpointStep_ok cfg exec st6 t2
  obtain ⟨e1, e2, e3, e4⟩ :=
    evaluateModelStep_ok cfg exec (convertCheckpointStep cfg exec st6) c1
  refine ⟨evaluateModelStep cfg exec (convertCheckpointStep cfg exec st6),
    ?_, e1, ?_, ?_, ?_⟩
  · rw [trainModelTail, h41, andThen_ok,
      show trainDefaultRemoveOld = true from rfl, t1, andThen_ok]
  · rw [e2, c2, t3, u2, h43]
    simp [generateBoxFilesStep, prepareDirectoriesStep]
  · rw [e3, c3, t4, u3, h44]
    simp [generateBoxFilesStep, prepareDirectoriesStep, lateLaunched]
  · refine (?_ : st1.events <+: _).trans (h45.trans (u4.trans (t5.trans (c4.trans e4))))
    exact ⟨[.info ("Created or verified existence of directory: " ++ finetunedDir cfg)] ++
      (gt.map (boxFileEvents nfc bd cfg)).flatten,
      by simp [generateBoxFilesStep, prepareDirectoriesStep]⟩

theorem trainModel_spec (nfc bd : String → String) (cfg : TrainerCfg)
    (exec : String → CommandResult) (gt : List GtImage) (st : PState) :
    ∃ st', trainModel nfc bd cfg exec gt st = .ok st' ∧
      st'.finetunedDirExists = true ∧
      st'.steps = st.steps ++ pipelineOrder ∧
      st'.launched = st.launched ++
        (if st.finetunedDirExists then [(Step.extractBaseLstm, cmdExtract cfg)]
         else []) ++ lstmfLaunched cfg gt ++ lateLaunched cfg ∧
      st.events <+: st'.events := by
  obtain ⟨st', p1, p2, p3, p4, p5⟩ :=
    trainModelTail_spec nfc bd cfg exec gt (extractBaseLstmStep cfg exec st)
  by_cases h : st.finetunedDirExists = true
  · obtain ⟨d1, d2, d3, d4⟩ := extractBaseLstmStep_ok cfg exec st h
    refine ⟨st', p1, p2, ?_, ?_, d4.trans p5⟩
    · rw [p3, d2]; simp [pipelineOrder]
    · rw [p4, d3]; simp [h]
  · have h' : st.finetunedDirExists = false := by simpa using h
    rw [extractBaseLstmStep_fresh cfg exec st h'] at p3 p4 p5
    refine ⟨st', p1, p2, ?_, ?_, ?_⟩
    · rw [p3]; simp [pipelineOrder]
    · rw [p4]; simp [h']
    · refine (?_ : st.events <+: _).trans p5
      exact ⟨[Event.info ("Extracting base LSTM for model: " ++ cfg.modelName),
        Event.error ("Failed to extract base LSTM for model: " ++ cfg.modelName ++
          ". Error: " ++ ("No such file or directory: " ++ logFilePath cfg))], by simp⟩

/-! ## Lemmas about feature-file and manifest generation -/

theorem strData_append (s t : String) : (s ++ t).data = s.data ++ t.data := rfl

theorem strEndsWith_append (s t : String) : strEndsWith (s ++ t) t = true := by
  simp only [strEndsWith, strData_append, Bool.and_eq_true, decide_eq_true_eq]
  refine ⟨by simp, ?_⟩
  have h : s.data.length + t.data.length - t.data.length = s.data.length := by omega
  simp only [List.length_append, h, List.drop_left]

theorem strEndsWith_unique (x u v : String) (hu : strEndsWith x u = true)
    (hv : strEndsWith x v = true) (hl : v.data.length ≤ u.data.length) :
    v.data = u.data.drop (u.data.length - v.data.length) := by
  simp only [strEndsWith, Bool.and_eq_true, decide_eq_true_eq] at hu hv
  obtain ⟨hu1, hu2⟩ := hu
  obtain ⟨hv1, hv2⟩ := hv
  have harith : x.data.length - v.data.length =
      (u.data.length - v.data.length) + (x.data.length - u.data.length) := by omega
  calc v.data
      = x.data.drop (x.data.length - v.data.length) := hv2.symm
    _ = x.data.drop ((u.data.length - v.data.length) +
          (x.data.length - u.data.length)) := by rw [harith]
    _ = (x.data.drop (x.data.length - u.data.length)).drop
          (u.data.length - v.data.length) := by rw [List.drop_drop]; congr 1; omega
    _ = u.data.drop (u.data.length - v.data.length) := by rw [hu2]

theorem lstmfName_endsWith (f : String) :
    strEndsWith (lstmfName f) ".lstmf" = true := by
  rw [lstmfName]
  exact strEndsWith_append _ _

theorem endsWith_lstmf_not_png (x : String) (h : strEndsWith x ".lstmf" = true) :
    strEndsWith x ".png" = false := by
  by_contra hc
  have hc' : strEndsWith x ".png" = true := by simpa using hc
  have hd := strEndsWith_unique x ".lstmf" ".png" h hc' (by decide)
  exact absurd hd (by decide)

theorem endsWith_lstmf_not_tif (x : String) (h : strEndsWith x ".lstmf" = true) :
    strEndsWith x ".tif" = false := by
  by_contra hc
  have hc' : strEndsWith x ".tif" = true := by simpa using hc
  have hd := strEndsWith_unique x ".lstmf" ".tif" h hc' (by decide)
  exact absurd hd (by decide)

theorem endsWith_lstmf_not_image (x : String)
    (h : strEndsWith x ".lstmf" = true) : isImageFile x = false := by
  simp [isImageFile, endsWith_lstmf_not_png x h, endsWith_lstmf_not_tif x h]

theorem insertFile_of_notMem (d : List String) (f : String) (h : f ∉ d) :
    insertFile d f = d ++ [f] := by
  simp [insertFile, h]

theorem insertFile_of_mem (d : List String) (f : String) (h : f ∈ d) :
    insertFile d f = d := by
  simp [insertFile, h]

theorem runTesseractBatch_fresh (succeeds : String → Bool)
    (images d : List String) (hn : (images.map lstmfName).Nodup)
    (hd : ∀ f ∈ images, lstmfName f ∉ d) :
    runTesseractBatch succeeds images d =
      d ++ (images.filter succeeds).map lstmfName := by
  induction images generalizing d with
  | nil => simp [runTesseractBatch]
  | cons f fs ih =>
    simp only [runTesseractBatch, List.foldl_cons] at *
    by_cases hs : succeeds f = true
    · rw [if_pos hs, insertFile_of_notMem d (lstmfName f) (hd f (by simp))]
      rw [ih _ (List.Nodup.of_cons hn) ?_]
      · simp [hs]
      · intro g hg
        simp only [List.mem_append, List.mem_singleton]
        rintro (hmem | heq)
        · exact hd g (List.mem_cons_of_mem f hg) hmem
        · have hin : lstmfName f ∈ fs.map lstmfName :=
            heq ▸ List.mem_map_of_mem lstmfName hg
          exact (List.nodup_cons.mp hn).1 hin
    · rw [if_neg hs, ih _ (List.Nodup.of_cons hn)
        (fun g hg => hd g (List.mem_cons_of_mem f hg))]
      simp [hs]

theorem runTesseractBatch_noop (succeeds : String → Bool)
    (images d : List String)
    (h : ∀ f ∈ images, succeeds f = true → lstmfName f ∈ d) :
    runTesseractBatch succeeds images d = d := by
  induction images generalizing d with
  | nil => simp [runTesseractBatch]
  | cons f fs ih =>
    simp only [runTesseractBatch, List.foldl_cons] at *
    by_cases hs : succeeds f = true
    · rw [if_pos hs, insertFile_of_mem d (lstmfName f) (h f (by simp) hs)]
      exact ih _ (fun g hg hsg => h g (List.mem_cons_of_mem f hg) hsg)
    · rw [if_neg hs]
      exact ih _ (fun g hg hsg => h g (List.mem_cons_of_mem f hg) hsg)

theorem filter_append_single_false {p : String → Bool} (l : List String)
    (x : String) (h : p x = false) : (l ++ [x]).filter p = l.filter p := by
  simp [List.filter_append, h]

theorem generateLstmfFilesFs_d2 (succeeds : String → Bool) (d : List String)
    (hstale : ∀ f ∈ d, strEndsWith f ".lstmf" = false)
    (hnodup : ((d.filter isImageFile).map lstmfName).Nodup) :
    runTesseractBatch succeeds (d.filter isImageFile) d =
      d ++ ((d.filter isImageFile).filter succeeds).map lstmfName := by
  refine runTesseractBatch_fresh succeeds _ d hnodup ?_
  intro f hf hmem
  have := hstale (lstmfName f) hmem
  rw [lstmfName_endsWith f] at this
  exact absurd this (by simp)

theorem manifest_eq (succeeds : String → Bool) (d : List String)
    (hstale : ∀ f ∈ d, strEndsWith f ".lstmf" = false)
    (hnodup : ((d.filter isImageFile).map lstmfName).Nodup) :
    (generateLstmfFilesFs succeeds d).2 =
      ((d.filter isImageFile).filter succeeds).map lstmfName := by
  have h2 := generateLstmfFilesFs_d2 succeeds d hstale hnodup
  simp only [generateLstmfFilesFs, h2]
  by_cases hmem : "all-lstmf-list.txt" ∈
      d ++ ((d.filter isImageFile).filter succeeds).map lstmfName
  · rw [insertFile_of_mem _ _ hmem, List.filter_append]
    rw [List.filter_eq_nil_iff.mpr ?_, List.filter_eq_self.mpr ?_]
    · simp
    · intro a ha
      obtain ⟨g, _, rfl⟩ := List.mem_map.mp ha
      exact lstmfName_endsWith g
    · intro a ha
      simp [hstale a ha]
  · rw [insertFile_of_notMem _ _ hmem,
      filter_append_single_false _ _ (by decide), List.filter_append]
    rw [List.filter_eq_nil_iff.mpr ?_, List.filter_eq_self.mpr ?_]
    · simp
    · intro a ha
      obtain ⟨g, _, rfl⟩ := List.mem_map.mp ha
      exact lstmfName_endsWith g
    · intro a ha
      simp [hstale a ha]

theorem images_of_d3 (succeeds : String → Bool) (d : List String)
    (hstale : ∀ f ∈ d, strEndsWith f ".lstmf" = false)
    (hnodup : ((d.filter isImageFile).map lstmfName).Nodup) :
    (generateLstmfFilesFs succeeds d).1.filter isImageFile =
      d.filter isImageFile := by
  have h2 := generateLstmfFilesFs_d2 succeeds d hstale hnodup
  simp only [generateLstmfFilesFs, h2]
  have himg : ∀ a ∈ ((d.filter isImageFile).filter succeeds).map lstmfName,
      isImageFile a = false := by
    intro a ha
    obtain ⟨g, _, rfl⟩ := List.mem_map.mp ha
    exact endsWith_lstmf_not_image _ (lstmfName_endsWith g)
  have hgen : ((((d.filter isImageFile).filter succeeds).map lstmfName).filter
      isImageFile) = [] :=
    List.filter_eq_nil_iff.mpr (fun a ha => by simp [himg a ha])
  by_cases hmem : "all-lstmf-list.txt" ∈
      d ++ ((d.filter isImageFile).filter succeeds).map lstmfName
  · rw [insertFile_of_mem _ _ hmem, List.filter_append, hgen]
    simp
  · rw [insertFile_of_notMem _ _ hmem, List.filter_append, List.filter_append,
      hgen, show ["all-lstmf-list.txt"].filter isImageFile = [] from by decide]
    simp

theorem mem_insertFile_of_mem (d : List String) (f x : String) (h : x ∈ d) :
    x ∈ insertFile d f := by
  by_cases hm : f ∈ d
  · rw [insertFile_of_mem _ _ hm]; exact h
  · rw [insertFile_of_notMem _ _ hm]; exact List.mem_append_left _ h

theorem self_mem_insertFile (d : List String) (f : String) :
    f ∈ insertFile d f := by
  by_cases hm : f ∈ d
  · rw [insertFile_of_mem _ _ hm]; exact hm
  · rw [insertFile_of_notMem _ _ hm]; simp

theorem generateLstmfFilesFs_regen (succeeds : String → Bool) (d : List String)
    (hstale : ∀ f ∈ d, strEndsWith f ".lstmf" = false)
    (hnodup : ((d.filter isImageFile).map lstmfName).Nodup) :
    (generateLstmfFilesFs succeeds (generateLstmfFilesFs succeeds d).1).2 =
      (generateLstmfFilesFs succeeds d).2 := by
  have himg3 := images_of_d3 succeeds d hstale hnodup
  have h2 := generateLstmfFilesFs_d2 succeeds d hstale hnodup
  have hln : "all-lstmf-list.txt" ∈ (generateLstmfFilesFs succeeds d).1 := by
    simp only [generateLstmfFilesFs]
    exact self_mem_insertFile _ _
  have hnoop : runTesseractBatch succeeds
      ((generateLstmfFilesFs succeeds d).1.filter isImageFile)
      (generateLstmfFilesFs succeeds d).1 = (generateLstmfFilesFs succeeds d).1 := by
    rw [himg3]
    refine runTesseractBatch_noop _ _ _ ?_
    intro f hf hs
    have hmemgen : lstmfName f ∈ ((d.filter isImageFile).filter succeeds).map lstmfName :=
      List.mem_map_of_mem _ (List.mem_filter.mpr ⟨hf, hs⟩)
    simp only [generateLstmfFilesFs, h2]
    exact mem_insertFile_of_mem _ _ _ (List.mem_append_right _ hmemgen)
  conv_lhs => rw [generateLstmfFilesFs]
  rw [hnoop, insertFile_of_mem _ _ hln]
  rw [generateLstmfFilesFs]

/-! ## Lemmas about pair discovery -/

/-- Whether an `Except` result is a success. -/
def exceptOk {α : Type} (r : Except String α) : Bool :=
  match r with
  | .ok _ => true
  | .error _ => false

theorem getFileBaseNamesAux_isOk (basePath : String) (listing l : List String) :
    exceptOk (getFileBaseNamesAux basePath listing l) =
      l.all (fun f =>
        (!strEndsWith f ".tif" || decide (((splitext f).1 ++ ".gt.txt") ∈ listing)) &&
        (strEndsWith f ".tif" || !strEndsWith f ".gt.txt" ||
          decide (((((splitext f).1).replace ".gt" "") ++ ".tif") ∈ listing))) := by
  induction l with
  | nil => simp [getFileBaseNamesAux, exceptOk]
  | cons f rest ih =>
    by_cases h1 : strEndsWith f ".tif" = true
    · by_cases h2 : ((splitext f).1 ++ ".gt.txt") ∈ listing
      · cases hr : getFileBaseNamesAux basePath listing rest with
        | ok r =>
          rw [hr] at ih
          simp [getFileBaseNamesAux, h1, h2, hr, exceptOk] at ih ⊢
          simpa using ih
        | error e =>
          rw [hr] at ih
          simp [getFileBaseNamesAux, h1, h2, hr, exceptOk] at ih ⊢
          simpa using ih
      · simp [getFileBaseNamesAux, h1, h2, exceptOk]
    · by_cases h3 : strEndsWith f ".gt.txt" = true
      · by_cases h4 : ((((splitext f).1).replace ".gt" "") ++ ".tif") ∈ listing
        · simp only [getFileBaseNamesAux, h1, h3, h4, if_true, if_false, ite_true,
            ite_false, Bool.false_eq_true, List.all_cons, decide_eq_true_eq]
          rw [← ih]
          simp [h1, h3, h4, exceptOk]
        · simp [getFileBaseNamesAux, h1, h3, h4, exceptOk]
      · simp only [getFileBaseNamesAux, h1, h3, if_true, if_false, ite_true,
          ite_false, Bool.false_eq_true, List.all_cons, decide_eq_true_eq]
        rw [← ih]
        simp [h1, h3, exceptOk]

theorem getFileBaseNames_isOk (basePath : String) (listing : List String) :
    exceptOk (getFileBaseNames basePath listing) = discoveryPasses listing := by
  rw [getFileBaseNames, getFileBaseNamesAux_isOk, discoveryPasses]

/-! ## Concrete fixtures used by witnesses and counterexamples -/

/-- The configuration the GUI uses (`ImageTextWindow.train_model`). -/
def cfg0 : TrainerCfg := ⟨"deu", "/gt", "/usr/share/tessdata"⟩

/-- A state in which the output directory already exists. -/
def st0 : PState := ⟨true, [], [], [], [], []⟩

/-- The state of a fresh job: output directory absent, nothing logged. -/
def stFresh : PState := ⟨false, [], [], [], [], []⟩

/-- An external world in which every command prints one line and exits 0. -/
def exec0 : String → CommandResult := fun _ => ⟨["out"], 0⟩

/-- A one-image batch whose transcription has two lines. -/
def imgsC4 : List GtImage := [⟨"a.tif", 10, 5, "x\ny"⟩]

/-- Result classification helper used by the C5 counterexample. -/
def launchedOf (r : Except String PState) : List (Step × String) :=
  match r with
  | .ok st => st.launched
  | .error _ => []

/-! ## Claim theorems -/

/-- C1: running the full training job (`train_model`) executes the eight
named pipeline steps — base-model extraction, output-directory creation,
box-file generation, feature-file generation plus manifest, unicharset
extraction, fine-tuning, checkpoint conversion, evaluation — exactly once
each, strictly in that order (`pipelineOrder`), for every external world
`exec`: in particular a non-zero exit code of any step's command never halts
the pipeline, every later step still executes. -/
theorem c1_pipeline_runs_all_steps_in_order (nfc bd : String → String)
    (cfg : TrainerCfg) (exec : String → CommandResult) (gt : List GtImage)
    (st : PState) :
    ∃ st', trainModel nfc bd cfg exec gt st = .ok st' ∧
      st'.steps = st.steps ++ pipelineOrder := by
  obtain ⟨st', p1, _, p3, _, _⟩ := trainModel_spec nfc bd cfg exec gt st
  exact ⟨st', p1, p3⟩

/-- C2: for every command string, `run_command` (with the log directory
present) runs the command in a subordinate process, forwards every output
line to both the console and the append-mode log file, blocks until the
process exits, and classifies the outcome purely by exit status: exit code 0
is reported as success, any non-zero exit code as failure carrying that
exact exit code; in both cases the full output is captured in the log. -/
theorem c2_run_command_contract (cfg : TrainerCfg)
    (exec : String → CommandResult) (tag : Step) (cmd : String) (st : PState)
    (h : st.finetunedDirExists = true) :
    ∃ st', runCommand cfg exec tag cmd st = .ok st' ∧
      st'.console = st.console ++ (exec cmd).outputLines ∧
      st'.logContent = st.logContent ++ (exec cmd).outputLines ∧
      st'.launched = st.launched ++ [(tag, cmd)] ∧
      st'.events = st.events ++
        [if (exec cmd).exitCode = 0 then
          Event.info ("Command completed successfully: " ++ cmd)
        else Event.error ("Command failed with return code " ++
          toString (exec cmd).exitCode ++ ": " ++ cmd)] := by
  refine ⟨afterCommand exec tag cmd st, runCommand_ok cfg exec tag cmd st h,
    by simp, by simp, by simp, ?_⟩
  by_cases hz : (exec cmd).exitCode = 0 <;> simp [classifyEvent, hz]

theorem c2_witness : st0.finetunedDirExists = true ∧
    ∃ st', runCommand cfg0 exec0 Step.train "echo hi" st0 = .ok st' ∧
      st'.console = st0.console ++ (exec0 "echo hi").outputLines ∧
      st'.logContent = st0.logContent ++ (exec0 "echo hi").outputLines ∧
      st'.launched = st0.launched ++ [(Step.train, "echo hi")] ∧
      st'.events = st0.events ++
        [if (exec0 "echo hi").exitCode = 0 then
          Event.info ("Command completed successfully: " ++ "echo hi")
        else Event.error ("Command failed with return code " ++
          toString (exec0 "echo hi").exitCode ++ ": " ++ "echo hi")] :=
  ⟨rfl, c2_run_command_contract cfg0 exec0 Step.train "echo hi" st0 rfl⟩

/-- A transcription whose stripped content splits into two or more lines is
rejected: the `ValueError` is raised, caught per-file, and logged. -/
theorem processTranscription_multiline (nfc bd : String → String)
    (width height : Nat) (content : String) (n : Nat)
    (hn : (pySplitNl (pyStrip content)).length = n) (h2 : 2 ≤ n) :
    processTranscription nfc bd width height content = .errorLogged n := by
  subst hn
  cases hsplit : pySplitNl (pyStrip content) with
  | nil => rw [hsplit] at h2; exact absurd h2 (by simp)
  | cons a t =>
    cases t with
    | nil => rw [hsplit] at h2; exact absurd h2 (by simp)
    | cons b t2 =>
      unfold processTranscription
      rw [hsplit]

/-- C3: for every image whose transcription file normalizes to exactly one
non-empty line, `generate_box_files` writes a two-line `.box` file whose
first line is exactly `WordStr 0 0 <width> <height> 0 #<display_text>`
(the display text NFC-normalized and bidi-reordered) and whose second line
is a tab character followed (after a space, per the fixed record format) by
`0 0 <width> <height> 0`; for one line `abc` and a 100x50 image the first
line reads `WordStr 0 0 100 50 0 #abc` (see the witness). -/
theorem c3_box_file_format (nfc bd : String → String) (width height : Nat)
    (content l0 : String) (h1 : pySplitNl (pyStrip content) = [l0])
    (h2 : nfc (pyStrip l0) ≠ "") :
    processTranscription nfc bd width height content =
      .boxFile
        ("WordStr 0 0 " ++ toString width ++ " " ++ toString height ++ " 0 #" ++
          bd (nfc (pyStrip l0)))
        ("\t 0 0 " ++ toString width ++ " " ++ toString height ++ " 0") := by
  unfold processTranscription
  rw [h1]
  simp [h2, boxLine1, boxLine2]

theorem c3_witness :
    pySplitNl (pyStrip "abc") = ["abc"] ∧ (id (pyStrip "abc") ≠ "") ∧
    processTranscription id id 100 50 "abc" =
      .boxFile
        ("WordStr 0 0 " ++ toString 100 ++ " " ++ toString 50 ++ " 0 #" ++
          id (id (pyStrip "abc")))
        ("\t 0 0 " ++ toString 100 ++ " " ++ toString 50 ++ " 0") ∧
    processTranscription id id 100 50 "abc" =
      .boxFile "WordStr 0 0 100 50 0 #abc" "\t 0 0 100 50 0" :=
  ⟨by decide, by decide,
   c3_box_file_format id id 100 50 "abc" "abc" (by decide) (by decide),
   by decide⟩

/-- C4 counterexample: a transcription file with zero lines (empty content)
is NOT rejected with a logged error as the claim states: `read().strip()`
of an empty file is `""`, whose `split("\n")` is `[""]` of length 1, so the
`ValueError` is never raised; the empty normalized line then fails the
`if line:` guard and the file is skipped silently — no box file, but also
no error logged (`skippedSilently`, a distinct outcome from `errorLogged`). -/
theorem c4_counterexample :
    processTranscription id id 100 50 "" = .skippedSilently := by decide

/-- C4 (amended): a transcription file whose stripped content has two or
more lines is rejected — an error is logged for it (`errorLogged`), no
`.box` file is written for it — and the batch continues: the batch result
keeps one entry per image.  (A zero-line file, by contrast, is skipped
silently without an error; see the counterexample.) -/
theorem c4_multiline_rejected_batch_continues (nfc bd : String → String)
    (imgs : List GtImage) (i : Nat) (g : GtImage) (hg : imgs.get? i = some g)
    (n : Nat) (hn : (pySplitNl (pyStrip g.txtContent)).length = n) (h2 : 2 ≤ n) :
    (generateBoxFiles nfc bd imgs).length = imgs.length ∧
    (generateBoxFiles nfc bd imgs).get? i = some (.errorLogged n) := by
  refine ⟨by simp [generateBoxFiles], ?_⟩
  rw [generateBoxFiles, List.get?_map, hg]
  simp [processTranscription_multiline nfc bd _ _ _ n hn h2]

theorem c4_witness :
    imgsC4.get? 0 = some ⟨"a.tif", 10, 5, "x\ny"⟩ ∧
    (pySplitNl (pyStrip (GtImage.mk "a.tif" 10 5 "x\ny").txtContent)).length = 2 ∧
    (generateBoxFiles id id imgsC4).length = imgsC4.length ∧
    (generateBoxFiles id id imgsC4).get? 0 = some (.errorLogged 2) :=
  ⟨by decide, by decide,
   (c4_multiline_rejected_batch_continues id id imgsC4 0 ⟨"a.tif", 10, 5, "x\ny"⟩
     (by decide) 2 (by decide) (by decide)).1,
   (c4_multiline_rejected_batch_continues id id imgsC4 0 ⟨"a.tif", 10, 5, "x\ny"⟩
     (by decide) 2 (by decide) (by decide)).2⟩

set_option maxRecDepth 10000 in
/-- C5 counterexample: the `iterations` default of `ModelTrainer.train` is
400, not 1000: invoking `train` with its defaults launches `lstmtraining`
with `--max_iterations 400`, and not the 1000-iteration command the full
pipeline uses. -/
theorem c5_counterexample :
    trainDefaultIterations ≠ 1000 ∧
    (Step.train, cmdTrain cfg0 400) ∈
      launchedOf (trainStep cfg0 exec0 trainDefaultIterations
        trainDefaultRemoveOld st0) ∧
    (Step.train, cmdTrain cfg0 1000) ∉
      launchedOf (trainStep cfg0 exec0 trainDefaultIterations
        trainDefaultRemoveOld st0) := by
  refine ⟨by decide, by decide, by decide⟩

/-- C5 (amended): the fine-tuning step runs the trainer for a configurable
number of iterations whose Python default is 400 (not 1000); the full
pipeline (`train_model`) invokes it with 1000 iterations explicitly; the
purge option defaults to true, and with it the step removes prior
output-directory contents (the `rm -rf` command) before the training
command. -/
theorem c5_train_defaults (cfg : TrainerCfg) (exec : String → CommandResult)
    (iterations : Nat) (st : PState) (h : st.finetunedDirExists = true) :
    trainDefaultIterations = 400 ∧ trainDefaultRemoveOld = true ∧
    (∃ st', trainStep cfg exec iterations trainDefaultRemoveOld st = .ok st' ∧
      st'.launched = st.launched ++
        [(Step.train, cmdRmOld cfg), (Step.train, cmdTrain cfg iterations)]) ∧
    (∀ (nfc bd : String → String) (gt : List GtImage) (st2 : PState),
      ∃ st2', trainModel nfc bd cfg exec gt st2 = .ok st2' ∧
        (Step.train, cmdTrain cfg 1000) ∈ st2'.launched) := by
  refine ⟨rfl, rfl, ?_, ?_⟩
  · obtain ⟨st', t1, _, _, t4, _⟩ := trainStep_ok cfg exec iterations st h
    exact ⟨st', t1, t4⟩
  · intro nfc bd gt st2
    obtain ⟨st2', p1, _, _, p4, _⟩ := trainModel_spec nfc bd cfg exec gt st2
    refine ⟨st2', p1, ?_⟩
    rw [p4]
    simp [lateLaunched]

theorem c5_witness : st0.finetunedDirExists = true ∧
    (trainDefaultIterations = 400 ∧ trainDefaultRemoveOld = true ∧
    (∃ st', trainStep cfg0 exec0 7 trainDefaultRemoveOld st0 = .ok st' ∧
      st'.launched = st0.launched ++
        [(Step.train, cmdRmOld cfg0), (Step.train, cmdTrain cfg0 7)]) ∧
    (∀ (nfc bd : String → String) (gt : List GtImage) (st2 : PState),
      ∃ st2', trainModel nfc bd cfg0 exec0 gt st2 = .ok st2' ∧
        (Step.train, cmdTrain cfg0 1000) ∈ st2'.launched)) :=
  ⟨rfl, c5_train_defaults cfg0 exec0 7 st0 rfl⟩

/-- C6 counterexample: pair discovery does NOT check `.png` images: a
directory containing only `a.png` (with no `a.gt.txt`) raises no error —
`get_file_base_names` returns successfully (with an empty pair list),
because the loop only examines files ending in `.tif` or `.gt.txt`. -/
theorem c6_counterexample : getFileBaseNames "/gt" ["a.png"] = .ok [] := by rfl

/-- C6 (amended): pair discovery checks that every `.tif` image has a
matching `.gt.txt` and that every `.gt.txt` has a matching `.tif`, raising
an error immediately (aborting discovery entirely) when either counterpart
is missing; `.png` files are ignored by discovery (only the trainer handles
them).  Discovery succeeds exactly when every `.tif` and every `.gt.txt` of
the listing has its counterpart (`discoveryPasses`). -/
theorem c6_discovery_checks_tif_pairs (basePath : String)
    (listing : List String) :
    exceptOk (getFileBaseNames basePath listing) = discoveryPasses listing :=
  getFileBaseNames_isOk basePath listing

/-- C7: after the feature-generation step over a ground-truth directory
with no stale `.lstmf` files and distinct per-image feature names, the
manifest `all-lstmf-list.txt` contains exactly one line per successfully
generated per-image feature file, with no duplicates; when every `tesseract`
invocation succeeds there is no missing entry relative to the directory's
image count; and regenerating the manifest produces the same entries. -/
theorem c7_manifest_contract (succeeds : String → Bool) (d : List String)
    (hstale : ∀ f ∈ d, strEndsWith f ".lstmf" = false)
    (hnodup : ((d.filter isImageFile).map lstmfName).Nodup) :
    (generateLstmfFilesFs succeeds d).2 =
      ((d.filter isImageFile).filter succeeds).map lstmfName ∧
    (generateLstmfFilesFs succeeds d).2.Nodup ∧
    ((∀ f ∈ d.filter isImageFile, succeeds f = true) →
      (generateLstmfFilesFs succeeds d).2.length = (d.filter isImageFile).length) ∧
    (generateLstmfFilesFs succeeds (generateLstmfFilesFs succeeds d).1).2 =
      (generateLstmfFilesFs succeeds d).2 := by
  have hm := manifest_eq succeeds d hstale hnodup
  refine ⟨hm, ?_, ?_, generateLstmfFilesFs_regen succeeds d hstale hnodup⟩
  · rw [hm]
    exact List.Nodup.sublist (List.Sublist.map _ (List.filter_sublist _)) hnodup
  · intro hall
    rw [hm, List.filter_eq_self.mpr hall, List.length_map]

theorem c7_witness :
    (∀ f ∈ ["a.tif", "a.gt.txt", "b.png", "b.gt.txt"],
      strEndsWith f ".lstmf" = false) ∧
    (((["a.tif", "a.gt.txt", "b.png", "b.gt.txt"].filter isImageFile).map
      lstmfName).Nodup) ∧
    (generateLstmfFilesFs (fun _ => true)
      ["a.tif", "a.gt.txt", "b.png", "b.gt.txt"]).2 =
      ((["a.tif", "a.gt.txt", "b.png", "b.gt.txt"].filter isImageFile).filter
        (fun _ => true)).map lstmfName ∧
    (generateLstmfFilesFs (fun _ => true)
      ["a.tif", "a.gt.txt", "b.png", "b.gt.txt"]).2.Nodup ∧
    (generateLstmfFilesFs (fun _ => true)
      ["a.tif", "a.gt.txt", "b.png", "b.gt.txt"]).2.length =
      (["a.tif", "a.gt.txt", "b.png", "b.gt.txt"].filter isImageFile).length ∧
    (generateLstmfFilesFs (fun _ => true)
      (generateLstmfFilesFs (fun _ => true)
        ["a.tif", "a.gt.txt", "b.png", "b.gt.txt"]).1).2 =
      (generateLstmfFilesFs (fun _ => true)
        ["a.tif", "a.gt.txt", "b.png", "b.gt.txt"]).2 := by
  have h := c7_manifest_contract (fun _ => true)
    ["a.tif", "a.gt.txt", "b.png", "b.gt.txt"] (by decide) (by decide)
  exact ⟨by decide, by decide, h.1, h.2.1, h.2.2.1 (by decide), h.2.2.2⟩

/-- C8: logging a removed pair is idempotent: for every base name not yet
recorded, invoking the removal-logging operation twice in succession leaves
`removed_pairs.txt` with exactly one occurrence of that base name, and the
second invocation changes nothing. -/
theorem c8_tombstone_idempotent (name : String) (ls : List String)
    (h : name ∉ ls) :
    logRemovedPair name (logRemovedPair name ls) = logRemovedPair name ls ∧
    (logRemovedPair name (logRemovedPair name ls)).count name = 1 := by
  have h1 : logRemovedPair name ls = ls ++ [name] := by
    simp [logRemovedPair, h]
  have h2 : name ∈ ls ++ [name] := by simp
  have h3 : logRemovedPair name (logRemovedPair name ls) = ls ++ [name] := by
    rw [h1]
    simp [logRemovedPair, h2]
  refine ⟨by rw [h3, h1], ?_⟩
  rw [h3, List.count_append]
  simp [List.count_eq_zero.mpr h]

theorem c8_witness : ("x" : String) ∉ ["y"] ∧
    (logRemovedPair "x" (logRemovedPair "x" ["y"]) = logRemovedPair "x" ["y"] ∧
     (logRemovedPair "x" (logRemovedPair "x" ["y"])).count "x" = 1) :=
  ⟨by decide, c8_tombstone_idempotent "x" ["y"] (by decide)⟩

/-- C9: on a fresh job whose output directory `<base_dir>/<model>_finetuned`
does not yet exist, the first pipeline step (base-model extraction) fails
before its external command is ever launched — `run_command` opens the log
file inside the not-yet-created directory and the `open` raises — the
exception is caught and logged by `extract_base_lstm`'s handler (so the
step produces no artifact: its `combine_tessdata` command never reaches
`Popen`), and the pipeline continues: all eight steps still execute. -/
theorem c9_fresh_job_step1_fails_before_launch (nfc bd : String → String)
    (cfg : TrainerCfg) (exec : String → CommandResult) (gt : List GtImage)
    (st : PState) (h1 : st.finetunedDirExists = false) (h2 : st.launched = [])
    (h3 : st.events = []) :
    ∃ st', trainModel nfc bd cfg exec gt st = .ok st' ∧
      (∀ c, (Step.extractBaseLstm, c) ∉ st'.launched) ∧
      Event.error ("Failed to extract base LSTM for model: " ++ cfg.modelName ++
        ". Error: " ++ ("No such file or directory: " ++ logFilePath cfg)) ∈
        st'.events ∧
      st'.steps = st.steps ++ pipelineOrder := by
  have hE := extractBaseLstmStep_fresh cfg exec st h1
  obtain ⟨st', p1, p2, p3, p4, p5⟩ :=
    trainModelTail_spec nfc bd cfg exec gt (extractBaseLstmStep cfg exec st)
  refine ⟨st', p1, ?_, ?_, ?_⟩
  · intro c hc
    rw [p4, hE] at hc
    simp [h2, lstmfLaunched, lateLaunched] at hc
  · refine p5.sublist.subset ?_
    rw [hE]
    simp [h3]
  · rw [p3, hE]
    simp [pipelineOrder]

theorem c9_witness : stFresh.finetunedDirExists = false ∧
    stFresh.launched = [] ∧ stFresh.events = [] ∧
    (∃ st', trainModel id id cfg0 exec0 [] stFresh = .ok st' ∧
      (∀ c, (Step.extractBaseLstm, c) ∉ st'.launched) ∧
      Event.error ("Failed to extract base LSTM for model: " ++ cfg0.modelName ++
        ". Error: " ++ ("No such file or directory: " ++ logFilePath cfg0)) ∈
        st'.events ∧
      st'.steps = stFresh.steps ++ pipelineOrder) :=
  ⟨rfl, rfl, rfl,
   c9_fresh_job_step1_fails_before_launch id id cfg0 exec0 [] stFresh rfl rfl rfl⟩

/-- C10 counterexample: the purge `rm -rf <finetuned_dir>/*` does NOT delete
every file in the output directory: the shell glob `*` skips names starting
with a dot, so a hidden file `.cache` in the output directory survives the
purge — while the per-job log file `deu_finetuned.log` is indeed deleted
and a file outside the directory is untouched. -/
theorem c10_counterexample :
    (⟨true, ".cache"⟩ : FsFile) ∈ purgeOutputDir
      [⟨true, ".cache"⟩, ⟨true, "deu_finetuned.log"⟩, ⟨false, "a.tif"⟩] ∧
    (⟨true, "deu_finetuned.log"⟩ : FsFile) ∉ purgeOutputDir
      [⟨true, ".cache"⟩, ⟨true, "deu_finetuned.log"⟩, ⟨false, "a.tif"⟩] ∧
    (⟨false, "a.tif"⟩ : FsFile) ∈ purgeOutputDir
      [⟨true, ".cache"⟩, ⟨true, "deu_finetuned.log"⟩, ⟨false, "a.tif"⟩] := by
  decide

/-- C10 (amended): the purge of the training step deletes every non-hidden
file in the output directory — in particular the per-job log file, whose
name does not start with a dot, so no log content appended by earlier
pipeline steps survives the purge — while hidden files (the shell glob `*`
does not match names starting with a dot) and files outside the output
directory are left unchanged. -/
theorem c10_purge_effect (fs : List FsFile) (name : String)
    (h : isHiddenName name = false) :
    (⟨true, name⟩ : FsFile) ∉ purgeOutputDir fs ∧
    (∀ f : FsFile, f.inOutputDir = false → f ∈ fs → f ∈ purgeOutputDir fs) ∧
    (∀ f : FsFile, f ∈ purgeOutputDir fs ↔
      f ∈ fs ∧ (f.inOutputDir = true → isHiddenName f.name = true)) := by
  refine ⟨?_, ?_, ?_⟩
  · intro hc
    have hp := (List.mem_filter.mp hc).2
    simp [h] at hp
  · intro f hdir hf
    exact List.mem_filter.mpr ⟨hf, by simp [hdir]⟩
  · intro f
    rw [purgeOutputDir, List.mem_filter]
    constructor
    · rintro ⟨hf, hp⟩
      refine ⟨hf, fun hd => ?_⟩
      simp [hd] at hp
      exact hp
    · rintro ⟨hf, hp⟩
      refine ⟨hf, ?_⟩
      by_cases hd : f.inOutputDir = true
      · simp [hd, hp hd]
      · simp only [Bool.not_eq_true] at hd
        simp [hd]

theorem c10_witness :
    isHiddenName "deu_finetuned.log" = false ∧
    ((⟨true, "deu_finetuned.log"⟩ : FsFile) ∉ purgeOutputDir
      [⟨true, ".cache"⟩, ⟨true, "deu_finetuned.log"⟩, ⟨false, "a.tif"⟩] ∧
    (∀ f : FsFile, f.inOutputDir = false →
      f ∈ [(⟨true, ".cache"⟩ : FsFile), ⟨true, "deu_finetuned.log"⟩, ⟨false, "a.tif"⟩] →
      f ∈ purgeOutputDir
        [⟨true, ".cache"⟩, ⟨true, "deu_finetuned.log"⟩, ⟨false, "a.tif"⟩]) ∧
    (∀ f : FsFile, f ∈ purgeOutputDir
        [⟨true, ".cache"⟩, ⟨true, "deu_finetuned.log"⟩, ⟨false, "a.tif"⟩] ↔
      f ∈ [(⟨true, ".cache"⟩ : FsFile), ⟨true, "deu_finetuned.log"⟩, ⟨false, "a.tif"⟩] ∧
      (f.inOutputDir = true → isHiddenName f.name = true))) :=
  ⟨by decide,
   c10_purge_effect [⟨true, ".cache"⟩, ⟨true, "deu_finetuned.log"⟩, ⟨false, "a.tif"⟩]
     "deu_finetuned.log" (by decide)⟩
